import Mathlib

/-!
Shallow embedding of the Vulkan render-pass cache
(`src/video_core/renderer_vulkan/vk_renderpass_cache.{h,cpp}` of the Citra
fork), together with theorems settling the specification claims about it.

Modelling conventions:
* Machine integers (`u32`) are `Nat` with explicit reduction modulo `2^32`
  where the source may overflow (the depth-index subtraction).
* Opaque host handles (`vk::ImageView`, `vk::RenderPass`,
  `vk::Framebuffer`) are modelled by `Nat`; the null handle is `0`.
  Objects created by the device are modelled as a structural description
  paired with a fresh creation id, so distinct creations yield distinct
  objects and handle identity is decidable.
* `vk::ClearValue` is modelled as a record of its two logical components
  (the color clear and the depth/stencil clear), each an opaque comparable
  word; the source compares only the `depthStencil` member.
* The scheduler (`Scheduler::Record`) is modelled as a FIFO list of
  recorded commands kept inside the cache state.
* The fatal assertion `ASSERT_MSG` aborts the process; an operation that
  would hit it returns `none`.
* The `cache_mutex` lock has no observable effect in a sequential model
  and is not represented.
-/

namespace RPC

/-- Model of `VideoCore::PixelFormat`: an external `enum class ... : u32`; the source
uses only the `Invalid` sentinel and the cast of a format to its `u32`
ordinal, so the embedding keeps the ordinal abstract. -/
inductive PixelFormat where
  | Invalid : PixelFormat
  | Format (ordinal : Nat) : PixelFormat
deriving DecidableEq, Repr

/-- The modulus of `u32` arithmetic. -/
def U32_MOD : Nat := 4294967296

/-- Model of `RenderpassCache::MAX_COLOR_FORMATS`. -/
def MAX_COLOR_FORMATS : Nat := 5

/-- Model of `RenderpassCache::MAX_DEPTH_FORMATS`. -/
def MAX_DEPTH_FORMATS : Nat := 4

/-- The color index computed in `RenderpassCache::GetRenderpass`:
`color == Invalid ? MAX_COLOR_FORMATS : static_cast<u32>(color)`. -/
def colorIndex (color : PixelFormat) : Nat :=
  match color with
  | .Invalid => MAX_COLOR_FORMATS
  | .Format n => n % U32_MOD

/-- The depth index computed in `RenderpassCache::GetRenderpass`:
`depth == Invalid ? MAX_DEPTH_FORMATS : static_cast<u32>(depth) - 14`,
the subtraction performed in `u32` arithmetic (wrapping modulo `2^32`). -/
def depthIndex (depth : PixelFormat) : Nat :=
  match depth with
  | .Invalid => MAX_DEPTH_FORMATS
  | .Format n => (n % U32_MOD + (U32_MOD - 14)) % U32_MOD

/-- Model of `vk::Format` as an opaque word; `vk::Format::eUndefined` is `0`. -/
abbrev VkFormat := Nat

/-- Model of `vk::Format::eUndefined`. -/
def eUndefined : VkFormat := 0

/-- Model of `vk::AttachmentLoadOp` (the constructors the source mentions). -/
inductive AttachmentLoadOp where
  | eLoad : AttachmentLoadOp
  | eClear : AttachmentLoadOp
  | eDontCare : AttachmentLoadOp
deriving DecidableEq, Repr

/-- Model of `vk::AttachmentStoreOp` (the constructors the source mentions). -/
inductive AttachmentStoreOp where
  | eStore : AttachmentStoreOp
  | eDontCare : AttachmentStoreOp
deriving DecidableEq, Repr

/-- Model of `vk::ImageLayout` (the constructors the source mentions; `eUndefined`
is the zero value of a value-initialized reference). -/
inductive ImageLayout where
  | eUndefined : ImageLayout
  | eGeneral : ImageLayout
deriving DecidableEq, Repr

/-- Model of `vk::AttachmentDescription`, restricted to the fields the source sets. -/
structure AttachmentDescription where
  format : VkFormat
  loadOp : AttachmentLoadOp
  storeOp : AttachmentStoreOp
  stencilLoadOp : AttachmentLoadOp
  stencilStoreOp : AttachmentStoreOp
  initialLayout : ImageLayout
  finalLayout : ImageLayout
deriving DecidableEq, Repr

/-- Model of `vk::AttachmentReference`. -/
structure AttachmentReference where
  attachment : Nat
  layout : ImageLayout
deriving DecidableEq, Repr

/-- Model of `vk::SubpassDescription`, restricted to the fields the source sets;
pointer fields become the referenced values (`none` for `nullptr`). -/
structure SubpassDescription where
  inputAttachmentCount : Nat
  colorAttachmentCount : Nat
  colorAttachment : AttachmentReference
  depthStencilAttachment : Option AttachmentReference
deriving DecidableEq, Repr

/-- The structural description a `vk::RenderPassCreateInfo` hands to the
device: the attachment array (of length `attachmentCount`), the subpass
array (of length `subpassCount`), and the dependency count. -/
structure RenderPassDescr where
  attachments : List AttachmentDescription
  subpasses : List SubpassDescription
  dependencyCount : Nat
deriving DecidableEq, Repr

/-- A created render-pass object: its structural description plus a fresh
creation id standing for the host handle, so object identity is decidable. -/
structure RenderPassObj where
  id : Nat
  descr : RenderPassDescr
deriving DecidableEq, Repr

/-- Model of `Vulkan::FramebufferInfo` (the framebuffer-cache key). -/
structure FramebufferInfo where
  color : Nat
  depth : Nat
  width : Nat
  height : Nat
deriving DecidableEq, Repr

/-- The structural description a `vk::FramebufferCreateInfo` hands to the
device. -/
structure FramebufferDescr where
  renderPass : RenderPassObj
  attachments : List Nat
  width : Nat
  height : Nat
  layers : Nat
deriving DecidableEq, Repr

/-- A created framebuffer object: description plus fresh creation id. -/
structure FramebufferObj where
  id : Nat
  descr : FramebufferDescr
deriving DecidableEq, Repr

/-- Model of `vk::ClearValue`, modelled as a record of its two logical components;
the depth/stencil component is the only one the no-op comparison reads. -/
structure ClearValue where
  color : Nat
  depthStencil : Nat
deriving DecidableEq, Repr

/-- Model of `RenderpassCache::State` (the render-state machine configuration). -/
structure RenderState where
  views : Nat × Nat
  render_area : Nat
  clear : ClearValue
  do_clear : Bool
  rendering : Bool
deriving DecidableEq, Repr

/-- The zero value `State state{}` the member is value-initialized to. -/
def RenderState.init : RenderState :=
  { views := (0, 0), render_area := 0, clear := { color := 0, depthStencil := 0 },
    do_clear := false, rendering := false }

/-- A command recorded into the scheduler: either
`cmdbuf.beginRenderPass` with the by-value captures of the lambda in
`BeginRendering`, or `cmdbuf.endRenderPass`. -/
inductive Command where
  | beginPass (renderPass : RenderPassObj) (framebuffer : FramebufferObj)
      (renderArea : Nat) (clearValueCount : Nat) (clear : ClearValue) : Command
  | endPass : Command
deriving DecidableEq, Repr

/-- The external `Vulkan::Framebuffer` descriptor, modelled at its
interface boundary as the record of its accessor results: `ImageViews()`
is `(color_view, depth_view)`, `Width()`, `Height()`, `RenderArea()` (an
opaque rectangle), and `Format(Color)` / `Format(Depth)`. -/
structure Framebuffer where
  color_view : Nat
  depth_view : Nat
  width : Nat
  height : Nat
  render_area : Nat
  color_format : PixelFormat
  depth_format : PixelFormat
deriving DecidableEq, Repr

/-- Accessor `framebuffer.ImageViews()` (a two-element array of view handles). -/
def Framebuffer.ImageViews (fb : Framebuffer) : Nat × Nat :=
  (fb.color_view, fb.depth_view)

/-- Association-list lookup, modelling `tsl::robin_map` membership and the
lazily filled `cached_renderpasses` table slots. -/
def lookupAssoc {α β : Type} [DecidableEq α] : List (α × β) → α → Option β
  | [], _ => none
  | (k, v) :: rest, key => if k = key then some v else lookupAssoc rest key

/-- The `Vulkan::RenderpassCache` object state. `traits` is the external
format-traits provider (`instance.GetTraits(format).native`); `recorded`
is the FIFO of commands handed to `scheduler.Record`; the `next` counters
mint fresh creation ids for device object creation. -/
structure RenderpassCache where
  traits : PixelFormat → VkFormat
  cached_renderpasses : List ((Nat × Nat × Bool) × RenderPassObj)
  framebuffers : List (FramebufferInfo × FramebufferObj)
  state : RenderState
  next_rp_id : Nat
  next_fb_id : Nat
  recorded : List Command

/-- The constructor `RenderpassCache(instance, scheduler)`: empty caches
and a value-initialized `State state{}`. -/
def RenderpassCache.init (traits : PixelFormat → VkFormat) : RenderpassCache :=
  { traits := traits, cached_renderpasses := [], framebuffers := [],
    state := RenderState.init, next_rp_id := 0, next_fb_id := 0, recorded := [] }

/-- Model of `RenderpassCache::ClearFramebuffers`: `framebuffers.clear()`. -/
def ClearFramebuffers (cache : RenderpassCache) : RenderpassCache :=
  { cache with framebuffers := [] }

/-- Model of `RenderpassCache::EndRendering`. -/
def EndRendering (cache : RenderpassCache) : RenderpassCache :=
  if cache.state.rendering then
    { cache with state := { cache.state with rendering := false },
                 recorded := cache.recorded ++ [Command.endPass] }
  else
    cache

/-- Model of `RenderpassCache::CreateRenderPass`: builds the attachment
descriptions (color first if present, then depth), the single subpass and
the creation info, exactly as the source does. -/
def CreateRenderPass (color depth : VkFormat) (load_op : AttachmentLoadOp) :
    RenderPassDescr :=
  let use_color := color ≠ eUndefined
  let use_depth := depth ≠ eUndefined
  let color_descr : AttachmentDescription :=
    { format := color, loadOp := load_op, storeOp := .eStore,
      stencilLoadOp := .eDontCare, stencilStoreOp := .eDontCare,
      initialLayout := .eGeneral, finalLayout := .eGeneral }
  let depth_descr : AttachmentDescription :=
    { format := depth, loadOp := load_op, storeOp := .eStore,
      stencilLoadOp := load_op, stencilStoreOp := .eStore,
      initialLayout := .eGeneral, finalLayout := .eGeneral }
  let attachments :=
    (if use_color then [color_descr] else []) ++
      (if use_depth then [depth_descr] else [])
  let color_attachment_ref : AttachmentReference :=
    if use_color then { attachment := 0, layout := .eGeneral }
    else { attachment := 0, layout := .eUndefined }
  let depth_attachment_ref : AttachmentReference :=
    { attachment := if use_color then 1 else 0, layout := .eGeneral }
  let subpass : SubpassDescription :=
    { inputAttachmentCount := 0,
      colorAttachmentCount := if use_color then 1 else 0,
      colorAttachment := color_attachment_ref,
      depthStencilAttachment := if use_depth then some depth_attachment_ref else none }
  { attachments := attachments, subpasses := [subpass], dependencyCount := 0 }

/-- Model of `RenderpassCache::CreateFramebuffer`: the attachment list keeps the
non-null views, color first, then depth. -/
def CreateFramebuffer (info : FramebufferInfo) (renderpass : RenderPassObj) :
    FramebufferDescr :=
  { renderPass := renderpass,
    attachments :=
      (if info.color ≠ 0 then [info.color] else []) ++
        (if info.depth ≠ 0 then [info.depth] else []),
    width := info.width, height := info.height, layers := 1 }

/-- Model of `RenderpassCache::GetRenderpass`. Returns the handle and the updated
cache, or `none` when the `ASSERT_MSG` range check fails (the fatal,
unrecoverable assertion). A table miss creates the object with
`CreateRenderPass` and stores it in the slot keyed by
`(color_index, depth_index, is_clear)`. -/
def GetRenderpass (cache : RenderpassCache) (color depth : PixelFormat)
    (is_clear : Bool) : Option (RenderPassObj × RenderpassCache) :=
  let color_index := colorIndex color
  let depth_index := depthIndex depth
  if color_index ≤ MAX_COLOR_FORMATS ∧ depth_index ≤ MAX_DEPTH_FORMATS then
    match lookupAssoc cache.cached_renderpasses (color_index, depth_index, is_clear) with
    | some renderpass => some (renderpass, cache)
    | none =>
      let color_format := cache.traits color
      let depth_format := cache.traits depth
      let load_op := if is_clear then AttachmentLoadOp.eClear else AttachmentLoadOp.eLoad
      let renderpass : RenderPassObj :=
        { id := cache.next_rp_id,
          descr := CreateRenderPass color_format depth_format load_op }
      some (renderpass,
        { cache with
          cached_renderpasses :=
            cache.cached_renderpasses ++
              [((color_index, depth_index, is_clear), renderpass)],
          next_rp_id := cache.next_rp_id + 1 })
  else
    none

/-- The `FramebufferInfo` that `BeginRendering` builds from the
framebuffer descriptor: `views[0]`, `views[1]`, width, height. -/
def Framebuffer.info (fb : Framebuffer) : FramebufferInfo :=
  { color := fb.ImageViews.1, depth := fb.ImageViews.2,
    width := fb.width, height := fb.height }

/-- The state assignment block of `BeginRendering`: the source assigns
`state.views`, `state.do_clear`, `state.clear` and `state.rendering` (and
nothing else — in particular not `state.render_area`). -/
def stateUpdate (cache : RenderpassCache) (framebuffer : Framebuffer)
    (do_clear : Bool) (clear : ClearValue) : RenderpassCache :=
  { cache with
    state := { views := framebuffer.ImageViews,
               render_area := cache.state.render_area,
               clear := clear, do_clear := do_clear, rendering := true } }

/-- The `scheduler.Record` call of `BeginRendering`: appends one begin
command capturing by value the render-pass handle, the framebuffer
handle, the framebuffer's render area, the clear value, and a clear-value
count of `static_cast<u32>(do_clear)`. -/
def recordBegin (cache : RenderpassCache) (renderpass : RenderPassObj)
    (fb : FramebufferObj) (framebuffer : Framebuffer) (do_clear : Bool)
    (clear : ClearValue) : RenderpassCache :=
  { cache with
    recorded := cache.recorded ++
      [Command.beginPass renderpass fb framebuffer.render_area
        (if do_clear then 1 else 0) clear] }

/-- Model of `RenderpassCache::BeginRendering`. Mirrors the source: the no-op
guard compares the views, the `do_clear` flag, only the depth/stencil
component of the clear value, and the active flag; otherwise it ends any
active pass, performs the state assignments (`stateUpdate`), resolves the
render pass, resolves or creates the framebuffer object
(`try_emplace` / `CreateFramebuffer`), and records one begin command
(`recordBegin`). -/
def BeginRendering (cache : RenderpassCache) (framebuffer : Framebuffer)
    (do_clear : Bool) (clear : ClearValue) : Option RenderpassCache :=
  if cache.state.views = framebuffer.ImageViews ∧ cache.state.do_clear = do_clear ∧
      cache.state.clear.depthStencil = clear.depthStencil ∧
      cache.state.rendering = true then
    some cache
  else
    let cache1 := stateUpdate (EndRendering cache) framebuffer do_clear clear
    match GetRenderpass cache1 framebuffer.color_format framebuffer.depth_format do_clear with
    | none => none
    | some (renderpass, cache2) =>
      match lookupAssoc cache2.framebuffers framebuffer.info with
      | some fb => some (recordBegin cache2 renderpass fb framebuffer do_clear clear)
      | none =>
        let fb : FramebufferObj :=
          { id := cache2.next_fb_id,
            descr := CreateFramebuffer framebuffer.info renderpass }
        some (recordBegin
          { cache2 with
            framebuffers := cache2.framebuffers ++ [(framebuffer.info, fb)],
            next_fb_id := cache2.next_fb_id + 1 }
          renderpass fb framebuffer do_clear clear)

/-- The load-op selection in `GetRenderpass`:
`is_clear ? vk::AttachmentLoadOp::eClear : vk::AttachmentLoadOp::eLoad`. -/
def loadOpFor (is_clear : Bool) : AttachmentLoadOp :=
  if is_clear then AttachmentLoadOp.eClear else AttachmentLoadOp.eLoad

/-! Concrete inputs used to instantiate the theorems below. -/

/-- A trivial format-traits provider mapping every format to `eUndefined`. -/
def trivTraits : PixelFormat → VkFormat := fun _ => 0

/-- A concrete framebuffer descriptor: color view `7`, depth view `8`,
`64×48`, render area `1`, color format ordinal `0`, depth format ordinal
`16` (depth index `2`). -/
def fbW : Framebuffer :=
  { color_view := 7, depth_view := 8, width := 64, height := 48, render_area := 1,
    color_format := .Format 0, depth_format := .Format 16 }

/-- A freshly constructed cache. -/
def cacheW0 : RenderpassCache := RenderpassCache.init trivTraits

/-- The render pass `cacheW0` creates for `(Format 0, Format 16, false)`. -/
def rpW : RenderPassObj :=
  { id := 0, descr := CreateRenderPass 0 0 AttachmentLoadOp.eLoad }

/-- The cache `cacheW0` after that first `GetRenderpass` miss. -/
def cacheW1 : RenderpassCache :=
  { cacheW0 with cached_renderpasses := [((0, 2, false), rpW)], next_rp_id := 1 }

/-- A cache with an active pass whose configuration matches `fbW` with
`do_clear = true` and depth/stencil clear `5`. -/
def cacheActiveW : RenderpassCache :=
  { cacheW0 with
    state := { views := (7, 8), render_area := 0,
               clear := { color := 3, depthStencil := 5 },
               do_clear := true, rendering := true } }

/-- A cache with an active pass whose views differ from `fbW`. -/
def cacheActiveOtherW : RenderpassCache :=
  { cacheW0 with
    state := { views := (1, 2), render_area := 0,
               clear := { color := 0, depthStencil := 0 },
               do_clear := false, rendering := true } }

/-- The first scenario clear value (a red color clear). -/
def redW : ClearValue := { color := 1, depthStencil := 0 }

/-- The second scenario clear value (a green color clear), differing from
`redW` only in the color component. -/
def greenW : ClearValue := { color := 2, depthStencil := 0 }

/-- The `state.render_area` field observed right after a non-no-op
`BeginRendering` on a fresh cache with `fbW` (whose render area is `1`). -/
def renderAreaAfterBegin : Option Nat :=
  (BeginRendering (RenderpassCache.init trivTraits) fbW false
      { color := 0, depthStencil := 0 }).map
    fun cache => cache.state.render_area

/-- The number of commands recorded by that same call. -/
def recordedAfterBegin : Option Nat :=
  (BeginRendering (RenderpassCache.init trivTraits) fbW false
      { color := 0, depthStencil := 0 }).map
    fun cache => cache.recorded.length

/-- The render state observed after that same call followed by
`EndRendering`. -/
def stateAfterBeginEnd : Option RenderState :=
  (BeginRendering (RenderpassCache.init trivTraits) fbW false
      { color := 0, depthStencil := 0 }).map
    fun cache => (EndRendering cache).state

/-! Helper lemmas shared by the claim theorems. -/

theorem lookupAssoc_append_self {α β : Type} [DecidableEq α] (l : List (α × β)) (k : α)
    (v : β) (h : lookupAssoc l k = none) : lookupAssoc (l ++ [(k, v)]) k = some v := by
  induction l with
  | nil => simp [lookupAssoc]
  | cons p rest ih =>
    obtain ⟨k1, v1⟩ := p
    simp only [lookupAssoc, List.cons_append] at h ⊢
    by_cases hk : k1 = k
    · simp [hk] at h
    · rw [if_neg hk] at h ⊢
      exact ih h

theorem getRenderpass_frame (cache : RenderpassCache) (color depth : PixelFormat)
    (is_clear : Bool) (rp : RenderPassObj) (cache' : RenderpassCache)
    (h : GetRenderpass cache color depth is_clear = some (rp, cache')) :
    cache'.recorded = cache.recorded ∧ cache'.state = cache.state ∧
    cache'.framebuffers = cache.framebuffers ∧ cache'.next_fb_id = cache.next_fb_id ∧
    cache'.traits = cache.traits := by
  simp only [GetRenderpass] at h
  split at h
  · split at h
    · rw [Option.some.injEq, Prod.mk.injEq] at h
      obtain ⟨-, h2⟩ := h
      subst h2
      exact ⟨rfl, rfl, rfl, rfl, rfl⟩
    · rw [Option.some.injEq, Prod.mk.injEq] at h
      obtain ⟨-, h2⟩ := h
      subst h2
      exact ⟨rfl, rfl, rfl, rfl, rfl⟩
  · exact absurd h (by simp)

theorem getRenderpass_succeeds (cache : RenderpassCache) (color depth : PixelFormat)
    (is_clear : Bool) (hc : colorIndex color ≤ MAX_COLOR_FORMATS)
    (hd : depthIndex depth ≤ MAX_DEPTH_FORMATS) :
    ∃ rp cache', GetRenderpass cache color depth is_clear = some (rp, cache') := by
  simp only [GetRenderpass]
  rw [if_pos ⟨hc, hd⟩]
  cases hL : lookupAssoc cache.cached_renderpasses (colorIndex color, depthIndex depth, is_clear) with
  | some rp => exact ⟨rp, cache, rfl⟩
  | none => exact ⟨_, _, rfl⟩

theorem getRenderpass_asserts (cache : RenderpassCache) (color depth : PixelFormat)
    (is_clear : Bool)
    (h : ¬(colorIndex color ≤ MAX_COLOR_FORMATS ∧ depthIndex depth ≤ MAX_DEPTH_FORMATS)) :
    GetRenderpass cache color depth is_clear = none := by
  simp only [GetRenderpass]
  rw [if_neg h]

theorem endRendering_inactive (cache : RenderpassCache)
    (h : cache.state.rendering = false) : EndRendering cache = cache := by
  simp [EndRendering, h]

theorem endRendering_active (cache : RenderpassCache)
    (h : cache.state.rendering = true) :
    EndRendering cache =
      { cache with state := { cache.state with rendering := false },
                   recorded := cache.recorded ++ [Command.endPass] } := by
  simp [EndRendering, h]

theorem endRendering_framebuffers (cache : RenderpassCache) :
    (EndRendering cache).framebuffers = cache.framebuffers := by
  unfold EndRendering
  split <;> rfl

theorem endRendering_next_fb_id (cache : RenderpassCache) :
    (EndRendering cache).next_fb_id = cache.next_fb_id := by
  unfold EndRendering
  split <;> rfl

theorem endRendering_render_area (cache : RenderpassCache) :
    (EndRendering cache).state.render_area = cache.state.render_area := by
  unfold EndRendering
  split <;> rfl

theorem beginRendering_unfold (cache : RenderpassCache) (fb : Framebuffer)
    (do_clear : Bool) (clear : ClearValue) (rp : RenderPassObj) (cacheR : RenderpassCache)
    (hno : ¬(cache.state.views = fb.ImageViews ∧ cache.state.do_clear = do_clear ∧
        cache.state.clear.depthStencil = clear.depthStencil ∧ cache.state.rendering = true))
    (hGR : GetRenderpass (stateUpdate (EndRendering cache) fb do_clear clear)
        fb.color_format fb.depth_format do_clear = some (rp, cacheR)) :
    BeginRendering cache fb do_clear clear =
      match lookupAssoc cacheR.framebuffers fb.info with
      | some fbo => some (recordBegin cacheR rp fbo fb do_clear clear)
      | none =>
        some (recordBegin
          { cacheR with
            framebuffers := cacheR.framebuffers ++
              [(fb.info, { id := cacheR.next_fb_id, descr := CreateFramebuffer fb.info rp })],
            next_fb_id := cacheR.next_fb_id + 1 }
          rp { id := cacheR.next_fb_id, descr := CreateFramebuffer fb.info rp }
          fb do_clear clear) := by
  simp only [BeginRendering]
  rw [if_neg hno, hGR]

theorem beginRendering_run (cache : RenderpassCache) (fb : Framebuffer)
    (do_clear : Bool) (clear : ClearValue)
    (hno : ¬(cache.state.views = fb.ImageViews ∧ cache.state.do_clear = do_clear ∧
        cache.state.clear.depthStencil = clear.depthStencil ∧ cache.state.rendering = true))
    (hc : colorIndex fb.color_format ≤ MAX_COLOR_FORMATS)
    (hd : depthIndex fb.depth_format ≤ MAX_DEPTH_FORMATS) :
    ∃ (rp : RenderPassObj) (fbo : FramebufferObj) (cache' : RenderpassCache),
      BeginRendering cache fb do_clear clear = some cache' ∧
      cache'.recorded = (EndRendering cache).recorded ++
        [Command.beginPass rp fbo fb.render_area (if do_clear then 1 else 0) clear] ∧
      cache'.state = { views := fb.ImageViews, render_area := cache.state.render_area,
                       clear := clear, do_clear := do_clear, rendering := true } ∧
      (lookupAssoc cache.framebuffers fb.info = none →
        fbo.id = cache.next_fb_id ∧
        cache'.framebuffers = cache.framebuffers ++ [(fb.info, fbo)] ∧
        cache'.next_fb_id = cache.next_fb_id + 1) ∧
      (∀ fbHit, lookupAssoc cache.framebuffers fb.info = some fbHit →
        fbo = fbHit ∧ cache'.framebuffers = cache.framebuffers ∧
        cache'.next_fb_id = cache.next_fb_id) := by
  obtain ⟨rp, cacheR, hGR⟩ :=
    getRenderpass_succeeds (stateUpdate (EndRendering cache) fb do_clear clear)
      fb.color_format fb.depth_format do_clear hc hd
  obtain ⟨hrec, hst, hfbs, hnfb, -⟩ := getRenderpass_frame _ _ _ _ _ _ hGR
  have hfbs' : cacheR.framebuffers = cache.framebuffers := by
    rw [hfbs]
    exact endRendering_framebuffers cache
  have hnfb' : cacheR.next_fb_id = cache.next_fb_id := by
    rw [hnfb]
    exact endRendering_next_fb_id cache
  have hBR := beginRendering_unfold cache fb do_clear clear rp cacheR hno hGR
  cases hL : lookupAssoc cacheR.framebuffers fb.info with
  | some fbHit =>
    rw [hL] at hBR
    refine ⟨rp, fbHit, recordBegin cacheR rp fbHit fb do_clear clear, hBR, ?_, ?_, ?_, ?_⟩
    · simp only [recordBegin]
      rw [hrec]
      rfl
    · simp only [recordBegin]
      rw [hst]
      simp only [stateUpdate]
      rw [endRendering_render_area]
    · intro hnone
      rw [hfbs', hnone] at hL
      exact absurd hL (by simp)
    · intro fbHit' hsome
      rw [hfbs', hsome, Option.some.injEq] at hL
      subst hL
      exact ⟨rfl, hfbs', hnfb'⟩
  | none =>
    rw [hL] at hBR
    refine ⟨rp, { id := cacheR.next_fb_id, descr := CreateFramebuffer fb.info rp }, _,
      hBR, ?_, ?_, ?_, ?_⟩
    · simp only [recordBegin]
      rw [hrec]
      rfl
    · simp only [recordBegin]
      rw [hst]
      simp only [stateUpdate]
      rw [endRendering_render_area]
    · intro hnone
      refine ⟨by exact hnfb', ?_, ?_⟩
      · simp only [recordBegin]
        rw [hfbs', hnfb']
      · simp only [recordBegin]
        rw [hnfb']
    · intro fbHit' hsome
      rw [hfbs', hsome] at hL
      exact absurd hL (by simp)

theorem beginRendering_noop (cache : RenderpassCache) (fb : Framebuffer)
    (do_clear : Bool) (clear : ClearValue)
    (h1 : cache.state.views = fb.ImageViews) (h2 : cache.state.do_clear = do_clear)
    (h3 : cache.state.clear.depthStencil = clear.depthStencil)
    (h4 : cache.state.rendering = true) :
    BeginRendering cache fb do_clear clear = some cache := by
  simp only [BeginRendering]
  rw [if_pos ⟨h1, h2, h3, h4⟩]

theorem endRendering_not_rendering (cache : RenderpassCache) :
    (EndRendering cache).state.rendering = false := by
  obtain ⟨t, crp, fbs, st, ni, nf, rec⟩ := cache
  obtain ⟨v, ra, cl, dc, r⟩ := st
  cases r <;> simp [EndRendering]

theorem mem_if_append {γ : Type} {a x y : γ} {c d : Prop} [Decidable c] [Decidable d]
    (h : a ∈ (if c then [x] else []) ++ (if d then [y] else [])) : a = x ∨ a = y := by
  rcases List.mem_append.mp h with h | h <;> split at h <;> simp at h <;> tauto

theorem createRenderPass_attachments (color depth : VkFormat) (load_op : AttachmentLoadOp) :
    (CreateRenderPass color depth load_op).attachments =
      (if color ≠ eUndefined then
        [{ format := color, loadOp := load_op, storeOp := .eStore,
           stencilLoadOp := .eDontCare, stencilStoreOp := .eDontCare,
           initialLayout := .eGeneral, finalLayout := .eGeneral }]
      else []) ++
        (if depth ≠ eUndefined then
          [{ format := depth, loadOp := load_op, storeOp := .eStore,
             stencilLoadOp := load_op, stencilStoreOp := .eStore,
             initialLayout := .eGeneral, finalLayout := .eGeneral }]
        else []) := rfl

/-! Claim theorems. -/

/-- C8: `EndRendering` called when the state machine is inactive records
zero commands and leaves the whole object (so in particular the entire
render state) unchanged; called when active it sets the active flag to
false and records exactly one end-pass command. -/
theorem endRendering_spec :
    (∀ cache : RenderpassCache, cache.state.rendering = false → EndRendering cache = cache) ∧
    (∀ cache : RenderpassCache, cache.state.rendering = true →
      (EndRendering cache).state.rendering = false ∧
      (EndRendering cache).recorded = cache.recorded ++ [Command.endPass]) := by
  constructor
  · intro cache h
    exact endRendering_inactive cache h
  · intro cache h
    rw [endRendering_active cache h]
    exact ⟨rfl, rfl⟩

/-- C8 witness: the inactive case on a fresh cache and the active case on
a concrete active cache. -/
theorem endRendering_spec_witness :
    EndRendering cacheW0 = cacheW0 ∧
    ((EndRendering cacheActiveW).state.rendering = false ∧
      (EndRendering cacheActiveW).recorded = cacheActiveW.recorded ++ [Command.endPass]) :=
  ⟨endRendering_spec.1 cacheW0 rfl, endRendering_spec.2 cacheActiveW rfl⟩

/-- C9 (amended): the render state is inactive (all fields at their zero
values) right after construction, and every `EndRendering` call leaves the
render state equal to its pre-call value with only the active flag forced
to false — the other fields (`views`, `render_area`, `clear`, `do_clear`)
keep their last values rather than being reset. -/
theorem renderState_reset :
    (∀ traits : PixelFormat → VkFormat,
      (RenderpassCache.init traits).state = RenderState.init) ∧
    (∀ cache : RenderpassCache,
      (EndRendering cache).state = { cache.state with rendering := false }) := by
  constructor
  · intro traits
    rfl
  · intro cache
    obtain ⟨t, crp, fbs, st, ni, nf, rec⟩ := cache
    obtain ⟨v, ra, cl, dc, r⟩ := st
    cases r <;> simp [EndRendering]

/-- C9 counterexample: after `BeginRendering` on a framebuffer with views
`(7, 8)` followed by `EndRendering`, the render state keeps those views
(only the active flag is false), so it is not equal to the initial state. -/
theorem renderState_reset_cx :
    stateAfterBeginEnd = some { RenderState.init with views := (7, 8) } ∧
    stateAfterBeginEnd ≠ some RenderState.init := by
  exact ⟨rfl, by decide⟩

/-- C5: in `GetRenderpass` key derivation a non-Invalid depth format maps
to `ordinal - 14` (for in-range ordinals), so ordinal `14` maps to depth
index `0` and ordinal `17` to `3`; `Invalid` maps to the
`MAX_COLOR_FORMATS` / `MAX_DEPTH_FORMATS` sentinels; and whenever a
derived index lies outside its closed valid range `GetRenderpass` hits the
fatal assertion (modelled as `none`) rather than any recoverable error. -/
theorem depth_index_mapping :
    (∀ n : Nat, 14 ≤ n → n < U32_MOD → depthIndex (.Format n) = n - 14) ∧
    depthIndex (.Format 14) = 0 ∧
    depthIndex (.Format 17) = 3 ∧
    colorIndex .Invalid = MAX_COLOR_FORMATS ∧
    depthIndex .Invalid = MAX_DEPTH_FORMATS ∧
    (∀ (cache : RenderpassCache) (color depth : PixelFormat) (is_clear : Bool),
      ¬(colorIndex color ≤ MAX_COLOR_FORMATS ∧ depthIndex depth ≤ MAX_DEPTH_FORMATS) →
      GetRenderpass cache color depth is_clear = none) := by
  refine ⟨?_, by decide, by decide, rfl, rfl, ?_⟩
  · intro n h14 hlt
    simp only [depthIndex, U32_MOD] at *
    omega
  · intro cache color depth is_clear h
    exact getRenderpass_asserts cache color depth is_clear h

/-- C5 witness: ordinal 17 maps to index 3, and a depth ordinal 5 (below
the base offset, so out of range after wrapping) makes `GetRenderpass`
assert. -/
theorem depth_index_mapping_witness :
    depthIndex (.Format 17) = 17 - 14 ∧
    GetRenderpass cacheW0 (.Format 0) (.Format 5) false = none :=
  ⟨depth_index_mapping.1 17 (by decide) (by decide),
   depth_index_mapping.2.2.2.2.2 cacheW0 (.Format 0) (.Format 5) false (by decide)⟩

/-- C10: for a non-Invalid depth format whose ordinal is below the base
offset 14, the `u32` subtraction wraps modulo `2^32` to
`2^32 - 14 + ordinal`, which is strictly greater than
`MAX_DEPTH_FORMATS`, so the single unsigned range guard makes
`GetRenderpass` hit the fatal assertion for below-range ordinals exactly
as for above-range ones. -/
theorem depth_index_underflow (n : Nat) (h : n < 14) :
    depthIndex (.Format n) = U32_MOD - 14 + n ∧
    MAX_DEPTH_FORMATS < depthIndex (.Format n) ∧
    (∀ (cache : RenderpassCache) (color : PixelFormat) (is_clear : Bool),
      GetRenderpass cache color (.Format n) is_clear = none) := by
  have h1 : depthIndex (.Format n) = U32_MOD - 14 + n := by
    simp only [depthIndex, U32_MOD] at *
    omega
  have h2 : MAX_DEPTH_FORMATS < depthIndex (.Format n) := by
    rw [h1]
    simp only [MAX_DEPTH_FORMATS, U32_MOD]
    omega
  refine ⟨h1, h2, ?_⟩
  intro cache color is_clear
  exact getRenderpass_asserts cache color (.Format n) is_clear (by omega)

/-- C10 witness: depth ordinal 3 wraps to `2^32 - 11`, above the valid
range, and `GetRenderpass` asserts on it. -/
theorem depth_index_underflow_witness :
    depthIndex (.Format 3) = U32_MOD - 14 + 3 ∧
    MAX_DEPTH_FORMATS < depthIndex (.Format 3) ∧
    GetRenderpass cacheW0 (.Format 0) (.Format 3) false = none :=
  ⟨(depth_index_underflow 3 (by decide)).1, (depth_index_underflow 3 (by decide)).2.1,
   (depth_index_underflow 3 (by decide)).2.2 cacheW0 (.Format 0) false⟩

/-- C2: whenever `GetRenderpass` returns, the returned handle is stored in
the table slot keyed by `(color_index, depth_index, is_clear)` of the
resulting cache, and any later call with identical arguments returns that
same stored handle with the cache unchanged (no new object is created). -/
theorem getRenderpass_memoized (cache : RenderpassCache) (color depth : PixelFormat)
    (is_clear : Bool) (rp : RenderPassObj) (cache' : RenderpassCache)
    (h : GetRenderpass cache color depth is_clear = some (rp, cache')) :
    lookupAssoc cache'.cached_renderpasses (colorIndex color, depthIndex depth, is_clear) =
      some rp ∧
    GetRenderpass cache' color depth is_clear = some (rp, cache') := by
  simp only [GetRenderpass] at h ⊢
  by_cases hg : colorIndex color ≤ MAX_COLOR_FORMATS ∧ depthIndex depth ≤ MAX_DEPTH_FORMATS
  · rw [if_pos hg] at h ⊢
    cases hL : lookupAssoc cache.cached_renderpasses (colorIndex color, depthIndex depth, is_clear) with
    | some rp0 =>
      rw [hL, Option.some.injEq, Prod.mk.injEq] at h
      obtain ⟨h1, h2⟩ := h
      subst h1
      subst h2
      exact ⟨hL, by rw [hL]⟩
    | none =>
      rw [hL, Option.some.injEq, Prod.mk.injEq] at h
      obtain ⟨h1, h2⟩ := h
      subst h1
      subst h2
      have hstore := lookupAssoc_append_self cache.cached_renderpasses
        (colorIndex color, depthIndex depth, is_clear)
        ({ id := cache.next_rp_id,
           descr := CreateRenderPass (cache.traits color) (cache.traits depth)
             (if is_clear then AttachmentLoadOp.eClear else AttachmentLoadOp.eLoad) } :
          RenderPassObj) hL
      refine ⟨hstore, ?_⟩
      rw [hstore]
  · rw [if_neg hg] at h
    exact absurd h (by simp)

/-- C2 witness: the first call on a fresh cache for
`(Format 0, Format 16, false)` misses and stores `rpW`; the theorem then
yields the stored slot and the idempotent second call. -/
theorem getRenderpass_memoized_witness :
    lookupAssoc cacheW1.cached_renderpasses
      (colorIndex (.Format 0), depthIndex (.Format 16), false) = some rpW ∧
    GetRenderpass cacheW1 (.Format 0) (.Format 16) false = some (rpW, cacheW1) :=
  getRenderpass_memoized cacheW0 (.Format 0) (.Format 16) false rpW cacheW1 rfl

/-- C1: while a pass is active, a `BeginRendering` whose views, `do_clear`
flag and depth/stencil clear component match the active configuration is a
no-op — it returns the cache unchanged (zero new commands, stored color
clear untouched) even when the color clear component differs; and in the
two-call scenario on a fresh cache with identical views and
`do_clear = true`, the second call is a no-op and exactly one begin
command is ever recorded, carrying the first call's clear value. -/
theorem beginRendering_noop_color_quirk :
    (∀ (cache : RenderpassCache) (fb : Framebuffer) (do_clear : Bool) (clear : ClearValue),
      cache.state.views = fb.ImageViews → cache.state.do_clear = do_clear →
      cache.state.clear.depthStencil = clear.depthStencil → cache.state.rendering = true →
      BeginRendering cache fb do_clear clear = some cache) ∧
    (∀ (fb : Framebuffer) (red green : ClearValue) (traits : PixelFormat → VkFormat),
      red.depthStencil = green.depthStencil →
      colorIndex fb.color_format ≤ MAX_COLOR_FORMATS →
      depthIndex fb.depth_format ≤ MAX_DEPTH_FORMATS →
      ∃ cache1 : RenderpassCache,
        BeginRendering (RenderpassCache.init traits) fb true red = some cache1 ∧
        BeginRendering cache1 fb true green = some cache1 ∧
        ∃ rp fbo, cache1.recorded = [Command.beginPass rp fbo fb.render_area 1 red]) := by
  constructor
  · intro cache fb do_clear clear h1 h2 h3 h4
    exact beginRendering_noop cache fb do_clear clear h1 h2 h3 h4
  · intro fb red green traits hds hc hd
    have hno : ¬((RenderpassCache.init traits).state.views = fb.ImageViews ∧
        (RenderpassCache.init traits).state.do_clear = true ∧
        (RenderpassCache.init traits).state.clear.depthStencil = red.depthStencil ∧
        (RenderpassCache.init traits).state.rendering = true) := by
      rintro ⟨-, -, -, h4⟩
      simp [RenderpassCache.init, RenderState.init] at h4
    obtain ⟨rp, fbo, cache1, hBR, hrec, hst, -, -⟩ :=
      beginRendering_run (RenderpassCache.init traits) fb true red hno hc hd
    refine ⟨cache1, hBR, ?_, rp, fbo, ?_⟩
    · apply beginRendering_noop
      · rw [hst]
      · rw [hst]
      · rw [hst]
        exact hds
      · rw [hst]
    · rw [hrec, endRendering_inactive _ rfl]
      rfl

/-- C1 witness: the no-op case on a concrete active cache whose stored
color clear (3) differs from the new one (9), and the concrete two-call
red/green scenario. -/
theorem beginRendering_noop_color_quirk_witness :
    BeginRendering cacheActiveW fbW true { color := 9, depthStencil := 5 } =
      some cacheActiveW ∧
    (∃ cache1 : RenderpassCache,
      BeginRendering (RenderpassCache.init trivTraits) fbW true redW = some cache1 ∧
      BeginRendering cache1 fbW true greenW = some cache1 ∧
      ∃ rp fbo, cache1.recorded = [Command.beginPass rp fbo fbW.render_area 1 redW]) :=
  ⟨beginRendering_noop_color_quirk.1 cacheActiveW fbW true
      { color := 9, depthStencil := 5 } rfl rfl rfl rfl,
   beginRendering_noop_color_quirk.2 fbW redW greenW trivTraits rfl
      (by decide) (by decide)⟩

/-- C3: `BeginRendering` when inactive records exactly one begin-pass
command and zero end-pass commands; when active with a configuration
differing in views, `do_clear` or depth/stencil clear, it records exactly
one end-pass command followed by exactly one begin-pass command, in that
order. -/
theorem beginRendering_command_sequence :
    (∀ (cache : RenderpassCache) (fb : Framebuffer) (do_clear : Bool) (clear : ClearValue),
      cache.state.rendering = false →
      colorIndex fb.color_format ≤ MAX_COLOR_FORMATS →
      depthIndex fb.depth_format ≤ MAX_DEPTH_FORMATS →
      ∃ cache' rp fbo,
        BeginRendering cache fb do_clear clear = some cache' ∧
        cache'.recorded = cache.recorded ++
          [Command.beginPass rp fbo fb.render_area (if do_clear then 1 else 0) clear]) ∧
    (∀ (cache : RenderpassCache) (fb : Framebuffer) (do_clear : Bool) (clear : ClearValue),
      cache.state.rendering = true →
      ¬(cache.state.views = fb.ImageViews ∧ cache.state.do_clear = do_clear ∧
          cache.state.clear.depthStencil = clear.depthStencil) →
      colorIndex fb.color_format ≤ MAX_COLOR_FORMATS →
      depthIndex fb.depth_format ≤ MAX_DEPTH_FORMATS →
      ∃ cache' rp fbo,
        BeginRendering cache fb do_clear clear = some cache' ∧
        cache'.recorded = cache.recorded ++
          [Command.endPass,
           Command.beginPass rp fbo fb.render_area (if do_clear then 1 else 0) clear]) := by
  constructor
  · intro cache fb do_clear clear hr hc hd
    have hno : ¬(cache.state.views = fb.ImageViews ∧ cache.state.do_clear = do_clear ∧
        cache.state.clear.depthStencil = clear.depthStencil ∧
        cache.state.rendering = true) := by
      rintro ⟨-, -, -, h4⟩
      rw [hr] at h4
      exact Bool.false_ne_true h4
    obtain ⟨rp, fbo, cache', hBR, hrec, -, -, -⟩ :=
      beginRendering_run cache fb do_clear clear hno hc hd
    refine ⟨cache', rp, fbo, hBR, ?_⟩
    rw [hrec, endRendering_inactive cache hr]
  · intro cache fb do_clear clear hr hdiff hc hd
    have hno : ¬(cache.state.views = fb.ImageViews ∧ cache.state.do_clear = do_clear ∧
        cache.state.clear.depthStencil = clear.depthStencil ∧
        cache.state.rendering = true) := by
      rintro ⟨a, b, c, -⟩
      exact hdiff ⟨a, b, c⟩
    obtain ⟨rp, fbo, cache', hBR, hrec, -, -, -⟩ :=
      beginRendering_run cache fb do_clear clear hno hc hd
    refine ⟨cache', rp, fbo, hBR, ?_⟩
    rw [hrec, endRendering_active cache hr]
    simp

/-- C3 witness: the inactive case on a fresh cache and the
active-differing case on a cache whose active views differ from `fbW`. -/
theorem beginRendering_command_sequence_witness :
    (∃ cache' rp fbo,
      BeginRendering cacheW0 fbW false { color := 0, depthStencil := 0 } = some cache' ∧
      cache'.recorded = cacheW0.recorded ++
        [Command.beginPass rp fbo fbW.render_area (if false then 1 else 0)
          { color := 0, depthStencil := 0 }]) ∧
    (∃ cache' rp fbo,
      BeginRendering cacheActiveOtherW fbW true { color := 0, depthStencil := 0 } =
        some cache' ∧
      cache'.recorded = cacheActiveOtherW.recorded ++
        [Command.endPass,
         Command.beginPass rp fbo fbW.render_area (if true then 1 else 0)
           { color := 0, depthStencil := 0 }]) :=
  ⟨beginRendering_command_sequence.1 cacheW0 fbW false { color := 0, depthStencil := 0 }
      rfl (by decide) (by decide),
   beginRendering_command_sequence.2 cacheActiveOtherW fbW true
      { color := 0, depthStencil := 0 } rfl (by decide) (by decide) (by decide)⟩

/-- C4: every render pass built by `CreateRenderPass` under the load op
`GetRenderpass` selects (`Clear` if `is_clear` else `Load`, never
`DontCare`) gives each present attachment that load op and `storeOp =
Store`; the depth attachment reuses the same load/store policy for its
stencil component; the attachments are listed color first (if present)
then depth (if present); and there is exactly one subpass and zero subpass
dependencies. -/
theorem createRenderPass_structure (color depth : VkFormat) (is_clear : Bool) :
    loadOpFor is_clear ≠ AttachmentLoadOp.eDontCare ∧
    (∀ a ∈ (CreateRenderPass color depth (loadOpFor is_clear)).attachments,
      a.loadOp = loadOpFor is_clear ∧ a.storeOp = AttachmentStoreOp.eStore) ∧
    (CreateRenderPass color depth (loadOpFor is_clear)).attachments.map
        AttachmentDescription.format =
      (if color ≠ eUndefined then [color] else []) ++
        (if depth ≠ eUndefined then [depth] else []) ∧
    (depth ≠ eUndefined →
      ∃ pre d,
        (CreateRenderPass color depth (loadOpFor is_clear)).attachments = pre ++ [d] ∧
        d.format = depth ∧ d.loadOp = loadOpFor is_clear ∧
        d.storeOp = AttachmentStoreOp.eStore ∧
        d.stencilLoadOp = loadOpFor is_clear ∧
        d.stencilStoreOp = AttachmentStoreOp.eStore) ∧
    (CreateRenderPass color depth (loadOpFor is_clear)).subpasses.length = 1 ∧
    (CreateRenderPass color depth (loadOpFor is_clear)).dependencyCount = 0 := by
  refine ⟨?_, ?_, ?_, ?_, rfl, rfl⟩
  · cases is_clear <;> simp [loadOpFor]
  · intro a ha
    rw [createRenderPass_attachments] at ha
    rcases mem_if_append ha with rfl | rfl <;> exact ⟨rfl, rfl⟩
  · rw [createRenderPass_attachments]
    by_cases hcu : color = eUndefined <;> by_cases hdu : depth = eUndefined <;>
      simp [hcu, hdu]
  · intro hdu
    refine ⟨(if color ≠ eUndefined then
        [{ format := color, loadOp := loadOpFor is_clear, storeOp := .eStore,
           stencilLoadOp := .eDontCare, stencilStoreOp := .eDontCare,
           initialLayout := .eGeneral, finalLayout := .eGeneral }]
      else []),
      { format := depth, loadOp := loadOpFor is_clear, storeOp := .eStore,
        stencilLoadOp := loadOpFor is_clear, stencilStoreOp := .eStore,
        initialLayout := .eGeneral, finalLayout := .eGeneral },
      ?_, rfl, rfl, rfl, rfl, rfl⟩
    rw [createRenderPass_attachments, if_pos hdu]

/-- C4 witness: concrete formats `color = 1`, `depth = 2`, `is_clear =
true`: the load op is not `DontCare`, the color attachment's membership
instance holds, the format list is `[1, 2]`-shaped, and the depth
attachment exists with the clear/store stencil policy. -/
theorem createRenderPass_structure_witness :
    loadOpFor true ≠ AttachmentLoadOp.eDontCare ∧
    (({ format := 1, loadOp := loadOpFor true, storeOp := .eStore,
        stencilLoadOp := .eDontCare, stencilStoreOp := .eDontCare,
        initialLayout := .eGeneral, finalLayout := .eGeneral } :
          AttachmentDescription).loadOp = loadOpFor true ∧
      ({ format := 1, loadOp := loadOpFor true, storeOp := .eStore,
         stencilLoadOp := .eDontCare, stencilStoreOp := .eDontCare,
         initialLayout := .eGeneral, finalLayout := .eGeneral } :
          AttachmentDescription).storeOp = AttachmentStoreOp.eStore) ∧
    ((CreateRenderPass 1 2 (loadOpFor true)).attachments.map
        AttachmentDescription.format =
      (if (1 : VkFormat) ≠ eUndefined then [(1 : VkFormat)] else []) ++
        (if (2 : VkFormat) ≠ eUndefined then [(2 : VkFormat)] else [])) ∧
    (∃ pre d, (CreateRenderPass 1 2 (loadOpFor true)).attachments = pre ++ [d] ∧
      d.format = 2 ∧ d.loadOp = loadOpFor true ∧
      d.storeOp = AttachmentStoreOp.eStore ∧
      d.stencilLoadOp = loadOpFor true ∧
      d.stencilStoreOp = AttachmentStoreOp.eStore) :=
  ⟨(createRenderPass_structure 1 2 true).1,
   (createRenderPass_structure 1 2 true).2.1
     { format := 1, loadOp := loadOpFor true, storeOp := .eStore,
       stencilLoadOp := .eDontCare, stencilStoreOp := .eDontCare,
       initialLayout := .eGeneral, finalLayout := .eGeneral } (by decide),
   (createRenderPass_structure 1 2 true).2.2.1,
   (createRenderPass_structure 1 2 true).2.2.2.1 (by decide)⟩

/-- C6 counterexample: on a fresh cache (state render area 0), a real
`BeginRendering` with `fbW` (render area 1) records one command but the
resulting `state.render_area` is still 0, not the framebuffer's 1 — the
state does not hold the framebuffer's render area as the claim asserts. -/
theorem beginRendering_render_area_cx :
    renderAreaAfterBegin = some 0 ∧ recordedAfterBegin = some 1 ∧ fbW.render_area = 1 :=
  ⟨rfl, rfl, rfl⟩

/-- C6 (amended): a non-no-op `BeginRendering` updates the render state to
active holding the framebuffer's views, the `do_clear` flag and the full
clear value, while the state's `render_area` field keeps its previous
value (the source never assigns it; the render area captured in the begin
command comes directly from the framebuffer), and it enqueues exactly one
begin-pass command capturing by value the render-pass handle, framebuffer
handle, the framebuffer's render area, the clear value, and a clear-value
count equal to 1 if `do_clear` else 0. -/
theorem beginRendering_state_update (cache : RenderpassCache) (fb : Framebuffer)
    (do_clear : Bool) (clear : ClearValue)
    (hno : ¬(cache.state.views = fb.ImageViews ∧ cache.state.do_clear = do_clear ∧
        cache.state.clear.depthStencil = clear.depthStencil ∧
        cache.state.rendering = true))
    (hc : colorIndex fb.color_format ≤ MAX_COLOR_FORMATS)
    (hd : depthIndex fb.depth_format ≤ MAX_DEPTH_FORMATS) :
    ∃ cache' rp fbo,
      BeginRendering cache fb do_clear clear = some cache' ∧
      cache'.state.views = fb.ImageViews ∧
      cache'.state.do_clear = do_clear ∧
      cache'.state.clear = clear ∧
      cache'.state.rendering = true ∧
      cache'.state.render_area = cache.state.render_area ∧
      cache'.recorded = (EndRendering cache).recorded ++
        [Command.beginPass rp fbo fb.render_area (if do_clear then 1 else 0) clear] := by
  obtain ⟨rp, fbo, cache', hBR, hrec, hst, -, -⟩ :=
    beginRendering_run cache fb do_clear clear hno hc hd
  exact ⟨cache', rp, fbo, hBR, by rw [hst], by rw [hst], by rw [hst], by rw [hst],
    by rw [hst], hrec⟩

/-- C6 witness: the amended claim instantiated on a fresh cache with `fbW`
and `do_clear = true`. -/
theorem beginRendering_state_update_witness :
    ∃ cache' rp fbo,
      BeginRendering cacheW0 fbW true redW = some cache' ∧
      cache'.state.views = fbW.ImageViews ∧
      cache'.state.do_clear = true ∧
      cache'.state.clear = redW ∧
      cache'.state.rendering = true ∧
      cache'.state.render_area = cacheW0.state.render_area ∧
      cache'.recorded = (EndRendering cacheW0).recorded ++
        [Command.beginPass rp fbo fbW.render_area (if true then 1 else 0) redW] :=
  beginRendering_state_update cacheW0 fbW true redW (by decide) (by decide) (by decide)

/-- C7: `ClearFramebuffers` empties the framebuffer cache while leaving
the render-pass table untouched, and after it a `BeginRendering` with a
previously-seen attachment-set identity creates a new framebuffer object
(a fresh creation id) rather than reusing the old handle. -/
theorem clearFramebuffers_spec :
    (∀ cache : RenderpassCache, (ClearFramebuffers cache).framebuffers = [] ∧
      (ClearFramebuffers cache).cached_renderpasses = cache.cached_renderpasses) ∧
    (∀ (traits : PixelFormat → VkFormat) (fb : Framebuffer) (do_clear : Bool)
        (clear : ClearValue),
      colorIndex fb.color_format ≤ MAX_COLOR_FORMATS →
      depthIndex fb.depth_format ≤ MAX_DEPTH_FORMATS →
      ∃ cache1 fbo1 cache2 fbo2,
        BeginRendering (RenderpassCache.init traits) fb do_clear clear = some cache1 ∧
        cache1.framebuffers = [(fb.info, fbo1)] ∧
        BeginRendering (ClearFramebuffers (EndRendering cache1)) fb do_clear clear =
          some cache2 ∧
        cache2.framebuffers = [(fb.info, fbo2)] ∧
        fbo2 ≠ fbo1) := by
  constructor
  · intro cache
    exact ⟨rfl, rfl⟩
  · intro traits fb do_clear clear hc hd
    have hno1 : ¬((RenderpassCache.init traits).state.views = fb.ImageViews ∧
        (RenderpassCache.init traits).state.do_clear = do_clear ∧
        (RenderpassCache.init traits).state.clear.depthStencil = clear.depthStencil ∧
        (RenderpassCache.init traits).state.rendering = true) := by
      rintro ⟨-, -, -, h4⟩
      simp [RenderpassCache.init, RenderState.init] at h4
    obtain ⟨rp1, fbo1, cache1, hBR1, -, -, hmiss1, -⟩ :=
      beginRendering_run (RenderpassCache.init traits) fb do_clear clear hno1 hc hd
    obtain ⟨hid1, hfb1, hnext1⟩ := hmiss1 rfl
    have hno2 : ¬((ClearFramebuffers (EndRendering cache1)).state.views = fb.ImageViews ∧
        (ClearFramebuffers (EndRendering cache1)).state.do_clear = do_clear ∧
        (ClearFramebuffers (EndRendering cache1)).state.clear.depthStencil =
          clear.depthStencil ∧
        (ClearFramebuffers (EndRendering cache1)).state.rendering = true) := by
      rintro ⟨-, -, -, h4⟩
      have h5 : (ClearFramebuffers (EndRendering cache1)).state.rendering = false :=
        endRendering_not_rendering cache1
      exact absurd (h5.symm.trans h4) (by decide)
    obtain ⟨rp2, fbo2, cache2, hBR2, -, -, hmiss2, -⟩ :=
      beginRendering_run (ClearFramebuffers (EndRendering cache1)) fb do_clear clear
        hno2 hc hd
    obtain ⟨hid2, hfb2, -⟩ := hmiss2 rfl
    refine ⟨cache1, fbo1, cache2, fbo2, hBR1, ?_, hBR2, ?_, ?_⟩
    · rw [hfb1]
      rfl
    · rw [hfb2]
      rfl
    · intro heq
      have e1 : fbo1.id = 0 := by
        rw [hid1]
        rfl
      have e2 : fbo2.id = 1 := by
        rw [hid2]
        show (EndRendering cache1).next_fb_id = 1
        rw [endRendering_next_fb_id, hnext1]
        rfl
      have e3 : fbo2.id = fbo1.id := by rw [heq]
      rw [e1, e2] at e3
      exact absurd e3 (by decide)

/-- C7 witness: the whole-cache part on a concrete cache with one cached
render pass, and the rebuild scenario instantiated with `trivTraits` and
`fbW`. -/
theorem clearFramebuffers_spec_witness :
    ((ClearFramebuffers cacheW1).framebuffers = [] ∧
      (ClearFramebuffers cacheW1).cached_renderpasses = cacheW1.cached_renderpasses) ∧
    (∃ cache1 fbo1 cache2 fbo2,
      BeginRendering (RenderpassCache.init trivTraits) fbW false greenW = some cache1 ∧
      cache1.framebuffers = [(fbW.info, fbo1)] ∧
      BeginRendering (ClearFramebuffers (EndRendering cache1)) fbW false greenW =
        some cache2 ∧
      cache2.framebuffers = [(fbW.info, fbo2)] ∧
      fbo2 ≠ fbo1) :=
  ⟨clearFramebuffers_spec.1 cacheW1,
   clearFramebuffers_spec.2 trivTraits fbW false greenW (by decide) (by decide)⟩

end RPC
